import Mathlib

/-!
Verification of the rsp-client request/notification correlation engine.

The definitions below are a shallow embedding of the TypeScript sources:
  * src/src/protocol/serverState.ts   (run-state constants)
  * src/src/util/common.ts            (Common.sendSimpleRequest, Common.sendRequestSync,
                                       ErrorMessages)
  * src/src/util/discovery.ts         (addDiscoveryPathSync, removeDiscoveryPathSync)
  * src/src/util/serverModel.ts       (createServerFromPath, createServerFromPathAsync,
                                       deleteServerSync)
  * src/src/util/serverLauncher.ts    (startServerSync, stopServerSync)
  * src/src/client.ts                 (RSPClient.disconnect)

Promise-based control flow is modelled as explicit state machines: one state
per in-flight operation, driven by a list of externally observable events
(an inbound notification, the settling of the request's own promise, the
timeout timer firing).  JavaScript promise semantics are embedded faithfully:
a promise settles at most once, `resolve`/`reject` on a settled promise is a
no-op, `p.then(f)` runs `f` when and only when `p` resolves (never when it
rejects), and `Promise.reject` inside a `setTimeout` callback produces a
dangling rejected promise that does not touch the operation's own promise.
Node's `EventEmitter` is modelled as a registration list in dispatch order,
with listeners identified by function identity (a `Nat` tag).
-/

/-! ## Protocol data types (src/src/protocol: protocol.ts, serverState.ts) -/

/-- Embeds `Protocol.ServerType`: identity of a server adapter type. -/
structure ServerType where
  id : String
  visibleName : String
  description : String
deriving DecidableEq

/-- Embeds `Protocol.ServerHandle`: identity (id, type) of a managed server. -/
structure ServerHandle where
  id : String
  type' : ServerType
deriving DecidableEq

/-- Embeds `Protocol.ServerStateChange`: payload of a `serverStateChanged` notification. -/
structure ServerStateChange where
  server : ServerHandle
  state : Nat
deriving DecidableEq

/-- Embeds `Protocol.DiscoveryPath`: payload of the discovery-path notifications. -/
structure DiscoveryPath where
  filepath : String
deriving DecidableEq

/-- Embeds `Protocol.ServerBean`: one discovery candidate returned by `server/findServerBeans`. -/
structure ServerBean where
  name : String
  location : String
  typeCategory : String
  serverAdapterTypeId : String
deriving DecidableEq

/-- Embeds `Protocol.ServerAttributes`: payload of the `server/createServer` request. -/
structure ServerAttributes where
  id : String
  serverType : String
  attributes : List (String × String)
deriving DecidableEq

/- Run-state constants from src/src/protocol/serverState.ts. -/
namespace ServerState

def UNKNOWN : Nat := 0

def STARTING : Nat := 1

def STARTED : Nat := 2

def STOPPING : Nat := 3

def STOPPED : Nat := 4

end ServerState

/- The timeout texts from the `ErrorMessages` namespace of src/src/util/common.ts. -/
namespace ErrorMessages

def FINDBEANS_TIMEOUT : String := "Failed to retrieve server beans in time"

def ADDPATH_TIMEOUT : String := "Failed to add discovery path in time"

def REMOVEPATH_TIMEOUT : String := "Failed to remove discovery path in time"

def DELETESERVER_TIMEOUT : String := "Failed to delete server in time"

def STARTSERVER_TIMEOUT : String := "Failed to start server in time"

def STOPSERVER_TIMEOUT : String := "Failed to stop server in time"

def CREATESERVER_TIMEOUT : String := "Failed to create server in time"

end ErrorMessages

/-! ## Node EventEmitter model

The client shares one `EventEmitter` between all helpers.  We model the
emitter as the flat list of `(eventName, listenerTag)` registrations in
dispatch order; `prependListener` adds at the front, `on` at the back,
`removeListener` removes the first matching registration and is a no-op when
the function was never registered (Node semantics; the client never registers
the same function twice). -/

abbrev Emitter := List (String × Nat)

def Emitter.listeners (e : Emitter) (name : String) : List Nat :=
  (e.filter (fun x => x.1 == name)).map (fun x => x.2)

def Emitter.listenerCount (e : Emitter) (name : String) : Nat :=
  (e.listeners name).length

def Emitter.prependListener (e : Emitter) (name : String) (l : Nat) : Emitter :=
  (name, l) :: e

def Emitter.on (e : Emitter) (name : String) (l : Nat) : Emitter :=
  e ++ [(name, l)]

def Emitter.removeListener (e : Emitter) (name : String) (l : Nat) : Emitter :=
  match e with
  | [] => []
  | x :: xs => if x.1 == name && x.2 == l then xs else x :: Emitter.removeListener xs name l

/-- Models `emitter.removeAllListeners()`: with no argument it drops every listener of
every event name. -/
def Emitter.removeAllListeners (_e : Emitter) : Emitter := []

/-! ## Common.sendRequestSync (src/src/util/common.ts lines 45-66)

```
static sendRequestSync<P, R, E>(connection, messageType, payload, emitter,
     eventId, listener, timeout, timeoutMessage): Promise<E> {
    return new Promise<E>((resolve, reject) => {
        const timer = setTimeout(() => {
            return reject(new Error(timeoutMessage));
        }, timeout);
        let response: Thenable<R>;
        const handler = (params: E) => {
            if (listener(params)) {
                response.then(() => {
                    clearTimeout(timer);
                    emitter.removeListener(eventId, listener);
                    resolve(params);
                });
            }
        };
        emitter.prependListener(eventId, handler);
        response = connection.sendRequest(messageType, payload);
    });
}
```

The registered function is `handler`; the function handed to
`removeListener` is `listener` (the predicate).  The model keeps both
identities (`handlerId`, `listenerId`) distinct, exactly as in the source. -/

structure CorrParams (E : Type) where
  eventId : String
  listener : E → Bool
  timeoutMessage : String
  handlerId : Nat
  listenerId : Nat

structure CorrState (E : Type) where
  emitter : Emitter
  timerActive : Bool
  respResolved : Bool
  respRejected : Bool
  pending : List E
  outcome : Option (Except String E)

/-- External happenings that drive one `sendRequestSync` call: an event
emitted on the bus, the request promise resolving or rejecting, the timer
firing. -/
inductive CorrEv (E : Type) where
  | emit (name : String) (p : E)
  | respond
  | rejectReq
  | fireTimer

/-- Models `resolve(p)`: a no-op when the promise has already settled. -/
def CorrState.settleOk {E : Type} (s : CorrState E) (p : E) : CorrState E :=
  if s.outcome.isSome then s else { s with outcome := some (Except.ok p) }

/-- Models `reject(new Error(msg))`: a no-op when the promise has already settled. -/
def CorrState.settleErr {E : Type} (s : CorrState E) (msg : String) : CorrState E :=
  if s.outcome.isSome then s else { s with outcome := some (Except.error msg) }

namespace SendRequestSync

/-- The continuation the handler attaches to the request promise:
`clearTimeout(timer); emitter.removeListener(eventId, listener); resolve(params)`.
Note that it removes `listener` — the predicate, which was never registered —
not `handler`, the function that `prependListener` actually added. -/
def cont {E : Type} (P : CorrParams E) (s : CorrState E) (p : E) : CorrState E :=
  CorrState.settleOk
    { s with timerActive := false
             emitter := s.emitter.removeListener P.eventId P.listenerId } p

def step {E : Type} (P : CorrParams E) (s : CorrState E) : CorrEv E → CorrState E
  | CorrEv.emit name p =>
    if name == P.eventId && (s.emitter.listeners name).contains P.handlerId then
      if P.listener p then
        if s.respResolved then cont P s p
        else if s.respRejected then s
        else { s with pending := s.pending ++ [p] }
      else s
    else s
  | CorrEv.respond =>
    if s.respResolved || s.respRejected then s
    else s.pending.foldl (cont P) { s with respResolved := true, pending := [] }
  | CorrEv.rejectReq =>
    if s.respResolved || s.respRejected then s
    else { s with respRejected := true, pending := [] }
  | CorrEv.fireTimer =>
    if s.timerActive then
      CorrState.settleErr { s with timerActive := false } P.timeoutMessage
    else s

/-- The synchronous prologue: start the timer, prepend the handler, send the
request. -/
def init {E : Type} (P : CorrParams E) (e0 : Emitter) : CorrState E :=
  { emitter := e0.prependListener P.eventId P.handlerId
    timerActive := true
    respResolved := false
    respRejected := false
    pending := []
    outcome := none }

def run {E : Type} (P : CorrParams E) (e0 : Emitter) (t : List (CorrEv E)) : CorrState E :=
  t.foldl (step P) (init P e0)

end SendRequestSync

/-! ## ServerLauncher.startServerSync / stopServerSync
(src/src/util/serverLauncher.ts lines 76-93 and 100-117)

```
startServerSync(launchParameters, timeout = 60000): Promise<ServerStateChange> {
    const timer = setTimeout(() => {
        return Promise.reject(`Failed to send server start request from ... in time`);
    }, timeout);
    return new Promise<ServerStateChange>(resolve => {
        let result: Thenable<Status>;
        this.connection.onNotification(ServerStateChangedNotification.type, state => {
            if (state.server.id === launchParameters.params.id && state.state === ServerStatus.STARTED) {
                result.then(() => { clearTimeout(timer); resolve(state); });
            }
        });
        result = this.connection.sendRequest(StartServerAsyncRequest.type, launchParameters);
    });
}
```

Both operations register a handler directly on the connection (never on the
shared emitter, never removed), and their promise executor receives only
`resolve`: the timer callback builds `Promise.reject(...)` — a fresh,
dangling rejected promise — so the returned promise is never rejected.
`stopServerSync` is the same machine with predicate
`state.server.id === stopParameters.id && state.state === ServerStatus.STOPPED`;
the machine is parameterised by the target id and terminal state. -/

structure LaunchParams where
  id : String
  targetState : Nat

structure LaunchState where
  /-- Notification handlers accumulated on the connection; never removed. -/
  connHandlers : Nat
  /-- The shared emitter; this operation never touches it. -/
  emitter : Emitter
  timerActive : Bool
  respResolved : Bool
  respRejected : Bool
  pending : List ServerStateChange
  /-- The returned promise can only be resolved — the executor has no `reject`. -/
  outcome : Option ServerStateChange
  /-- Dangling `Promise.reject(...)` values produced by the timer callback. -/
  unhandledRejections : Nat
deriving DecidableEq

inductive LaunchEv where
  | notifyState (st : ServerStateChange)
  | respond
  | rejectReq
  | fireTimer
deriving DecidableEq

namespace StartServerSync

/-- Models `result.then(() => { clearTimeout(timer); resolve(state); })`. -/
def cont (s : LaunchState) (st : ServerStateChange) : LaunchState :=
  let s' := { s with timerActive := false }
  if s'.outcome.isSome then s' else { s' with outcome := some st }

def step (P : LaunchParams) (s : LaunchState) : LaunchEv → LaunchState
  | LaunchEv.notifyState st =>
    if st.server.id == P.id && st.state == P.targetState then
      if s.respResolved then cont s st
      else if s.respRejected then s
      else { s with pending := s.pending ++ [st] }
    else s
  | LaunchEv.respond =>
    if s.respResolved || s.respRejected then s
    else s.pending.foldl cont { s with respResolved := true, pending := [] }
  | LaunchEv.rejectReq =>
    if s.respResolved || s.respRejected then s
    else { s with respRejected := true, pending := [] }
  | LaunchEv.fireTimer =>
    if s.timerActive then
      { s with timerActive := false, unhandledRejections := s.unhandledRejections + 1 }
    else s

/-- Prologue: start the timer, register the connection handler, send the
request.  The shared emitter is left untouched. -/
def init (e0 : Emitter) : LaunchState :=
  { connHandlers := 1
    emitter := e0
    timerActive := true
    respResolved := false
    respRejected := false
    pending := []
    outcome := none
    unhandledRejections := 0 }

def run (P : LaunchParams) (e0 : Emitter) (t : List LaunchEv) : LaunchState :=
  t.foldl (step P) (init e0)

end StartServerSync

/-! ## ServerModel.createServerFromPath (src/src/util/serverModel.ts lines 93-125)

```
createServerFromPath(path, id, timeout = 2000): Promise<ServerHandle> {
    return new Promise<ServerHandle>(async (resolve, reject) => {
        const timer = setTimeout(() => {
            return reject(new Error(ErrorMessages.CREATESERVER_TIMEOUT));
        }, timeout);
        let result: Thenable<Status>;
        const listener = (handle: ServerHandle) => {
            if (handle.id === id) {
                result.then(status => {
                    clearTimeout(timer);
                    this.emitter.removeListener('serverAdded', listener);
                    resolve(handle);
                });
            }
        };
        this.emitter.prependListener('serverAdded', listener);
        const serverBeans = await this.connection.sendRequest(FindServerBeansRequest.type, {filepath: path});
        const serverAttributes = {
            id: id,
            serverType: serverBeans[0].serverAdapterTypeId,
            attributes: { 'server.home.dir': serverBeans[0].location }
        };
        if (serverBeans[0].typeCategory === 'MINISHIFT') {
            serverAttributes.attributes['server.home.file'] = serverBeans[0].location;
        }
        result = this.connection.sendRequest(CreateServerRequest.type, serverAttributes);
    });
}
```

The executor is an `async` function handed to the `Promise` constructor, so
an exception thrown inside it (for instance `serverBeans[0]` on an empty
discovery result) rejects only the discarded executor promise: the returned
promise is untouched and can settle later only through `timer`. -/

namespace ServerModel

/-- The attribute map built for `server/createServer` from the first
discovery candidate. -/
def createServerAttributes (bean : ServerBean) (id : String) : ServerAttributes :=
  { id := id
    serverType := bean.serverAdapterTypeId
    attributes :=
      ("server.home.dir", bean.location) ::
        (if bean.typeCategory == "MINISHIFT" then [("server.home.file", bean.location)] else []) }

end ServerModel

structure CreateState where
  emitter : Emitter
  timerActive : Bool
  beansResolved : Bool
  /-- Holds `some attrs` once the `server/createServer` request has been sent. -/
  createSent : Option ServerAttributes
  createResolved : Bool
  createRejected : Bool
  pending : List ServerHandle
  outcome : Option (Except String ServerHandle)
  /-- The async executor threw (or its awaited request rejected); the
  exception rejects only the discarded executor promise. -/
  executorCrashed : Bool
  /-- The listener fired while `result` was still `undefined`. -/
  handlerThrew : Bool

inductive CreateEv where
  | beansRespond (beans : List ServerBean)
  | beansReject
  | emitAdded (h : ServerHandle)
  | createRespond
  | createReject
  | fireTimer

namespace CreateFromPath

/-- Function-identity tag of the `listener` closure; here registration and
removal use the same function. -/
def handlerId : Nat := 0

/-- Models `result.then(status => { clearTimeout(timer);
emitter.removeListener('serverAdded', listener); resolve(handle); })`. -/
def cont (s : CreateState) (h : ServerHandle) : CreateState :=
  let s' := { s with timerActive := false
                     emitter := s.emitter.removeListener "serverAdded" handlerId }
  if s'.outcome.isSome then s' else { s' with outcome := some (Except.ok h) }

def step (id : String) (s : CreateState) : CreateEv → CreateState
  | CreateEv.beansRespond beans =>
    if s.beansResolved || s.executorCrashed then s
    else
      match beans with
      | [] => { s with beansResolved := true, executorCrashed := true }
      | b :: _ => { s with beansResolved := true
                           createSent := some (ServerModel.createServerAttributes b id) }
  | CreateEv.beansReject =>
    if s.beansResolved || s.executorCrashed then s
    else { s with executorCrashed := true }
  | CreateEv.emitAdded h =>
    if (s.emitter.listeners "serverAdded").contains handlerId then
      if h.id == id then
        if s.createSent.isNone then { s with handlerThrew := true }
        else if s.createResolved then cont s h
        else if s.createRejected then s
        else { s with pending := s.pending ++ [h] }
      else s
    else s
  | CreateEv.createRespond =>
    if s.createSent.isNone || s.createResolved || s.createRejected then s
    else s.pending.foldl cont { s with createResolved := true, pending := [] }
  | CreateEv.createReject =>
    if s.createSent.isNone || s.createResolved || s.createRejected then s
    else { s with createRejected := true, pending := [] }
  | CreateEv.fireTimer =>
    if s.timerActive then
      let s' := { s with timerActive := false }
      if s'.outcome.isSome then s'
      else { s' with outcome := some (Except.error ErrorMessages.CREATESERVER_TIMEOUT) }
    else s

/-- Prologue: start the timer, prepend the listener on `serverAdded`, send
the `server/findServerBeans` request. -/
def init (e0 : Emitter) : CreateState :=
  { emitter := e0.prependListener "serverAdded" handlerId
    timerActive := true
    beansResolved := false
    createSent := none
    createResolved := false
    createRejected := false
    pending := []
    outcome := none
    executorCrashed := false
    handlerThrew := false }

def run (id : String) (e0 : Emitter) (t : List CreateEv) : CreateState :=
  t.foldl (step id) (init e0)

end CreateFromPath

/-! ## Common.sendSimpleRequest (src/src/util/common.ts lines 20-31)

```
static sendSimpleRequest<P, R>(connection, messageType, payload, timeout, timeoutMessage): Promise<R> {
    return new Promise<R>((resolve, reject) => {
        const timer = setTimeout(() => {
            reject(new Error(timeoutMessage));
        }, timeout);
        return connection.sendRequest(messageType, payload).then(result => {
            clearTimeout(timer);
            resolve(result);
        });
    });
}
```

Only a fulfilment handler is attached to the request promise: a transport
rejection runs nothing. -/

structure SimpleState (R : Type) where
  timerActive : Bool
  respSettled : Bool
  outcome : Option (Except String R)

inductive SimpleEv (R : Type) where
  | respond (r : R)
  | rejectReq
  | fireTimer

namespace SendSimpleRequest

def step {R : Type} (msg : String) (s : SimpleState R) : SimpleEv R → SimpleState R
  | SimpleEv.respond r =>
    if s.respSettled then s
    else
      let s' := { s with respSettled := true, timerActive := false }
      if s'.outcome.isSome then s' else { s' with outcome := some (Except.ok r) }
  | SimpleEv.rejectReq =>
    if s.respSettled then s else { s with respSettled := true }
  | SimpleEv.fireTimer =>
    if s.timerActive then
      let s' := { s with timerActive := false }
      if s'.outcome.isSome then s' else { s' with outcome := some (Except.error msg) }
    else s

def init {R : Type} : SimpleState R :=
  { timerActive := true, respSettled := false, outcome := none }

def run {R : Type} (msg : String) (t : List (SimpleEv R)) : SimpleState R :=
  t.foldl (step msg) init

end SendSimpleRequest

/-! ## Observable side-effect order of the prologues

Each correlated operation performs its setup synchronously; the lists below
record those primitive effects in source order. -/

inductive Effect where
  | startTimer
  | subscribePrepend (eventName : String)
  | subscribeConnection (eventName : String)
  | sendReq (method : String)
deriving DecidableEq

def Effect.isSubscribePrepend : Effect → Bool
  | Effect.subscribePrepend _ => true
  | _ => false

/-- Effects of `Common.sendRequestSync`: `setTimeout` (line 48), `prependListener`
(line 63), `sendRequest` (line 64). -/
def sendRequestSyncEffects (eventId method : String) : List Effect :=
  [Effect.startTimer, Effect.subscribePrepend eventId, Effect.sendReq method]

/-- Effects of `ServerLauncher.startServerSync`: `setTimeout` (line 77),
`connection.onNotification` (line 83), `sendRequest` (line 91).  The shared
emitter is never used. -/
def startServerSyncEffects : List Effect :=
  [Effect.startTimer, Effect.subscribeConnection "serverStateChanged",
   Effect.sendReq "server/startServerAsync"]

/-- Effects of `ServerLauncher.stopServerSync`: same shape (lines 101-116). -/
def stopServerSyncEffects : List Effect :=
  [Effect.startTimer, Effect.subscribeConnection "serverStateChanged",
   Effect.sendReq "server/stopServerAsync"]

/-- Effects of `ServerModel.createServerFromPath`: `setTimeout` (line 95),
`prependListener` (line 109), the discovery request (line 111), the
correlated create request (line 123). -/
def createServerFromPathEffects : List Effect :=
  [Effect.startTimer, Effect.subscribePrepend "serverAdded",
   Effect.sendReq "server/findServerBeans", Effect.sendReq "server/createServer"]

/-! ## ServerModel.createServerFromPathAsync (src/src/util/serverModel.ts lines 46-61)

The discovery request is sent with `timeout / 2`, the create request with
`timeout`. -/

/-- Timeout budgets of `createServerFromPathAsync`:
`(findServerBeans budget, createServer budget)`. -/
def createServerFromPathAsyncBudgets (timeout : ℚ) : ℚ × ℚ :=
  (timeout / 2, timeout)

/-! ## RSPClient.disconnect (src/src/client.ts lines 67-75)

```
disconnect(): void {
    if (!this.connection) {
        throw new rpc.ConnectionError(rpc.ConnectionErrors.Closed, 'Connection not initialized');
    }
    this.emitter.removeAllListeners();
    this.connection.dispose();
    this.socket.end();
    this.socket.destroy();
}
```
-/

structure RSPClientState where
  connectionInitialized : Bool
  emitter : Emitter
  connectionDisposed : Bool
  socketDestroyed : Bool
deriving DecidableEq

inductive DisconnectEffect where
  | removeAllListeners
  | disposeConnection
  | endSocket
  | destroySocket
deriving DecidableEq

namespace RSPClient

/-- Models `disconnect` as a state transition: an error leaves the client untouched
(the thrown `ConnectionError` aborts before any mutation). -/
def disconnect (s : RSPClientState) : Except String RSPClientState :=
  if !s.connectionInitialized then Except.error "Connection not initialized"
  else Except.ok { s with emitter := s.emitter.removeAllListeners
                          connectionDisposed := true
                          socketDestroyed := true }

/-- Source order of the side effects on the success path. -/
def disconnectEffects : List DisconnectEffect :=
  [DisconnectEffect.removeAllListeners, DisconnectEffect.disposeConnection,
   DisconnectEffect.endSocket, DisconnectEffect.destroySocket]

end RSPClient

deriving instance DecidableEq for Except

/-! ## Concrete instances used in the scenario parts of the claims -/

/-- A server type for the spec's "wfly" scenarios. -/
def wflyType : ServerType :=
  { id := "org.jboss.ide.eclipse.as.wildfly.130", visibleName := "WildFly 13.x", description := "" }

def wflyHandle : ServerHandle := { id := "wfly", type' := wflyType }

def otherHandle : ServerHandle := { id := "other", type' := wflyType }

/-- The way `ServerModel.deleteServerSync` instantiates `sendRequestSync` with the
`serverRemoved` event and the predicate `param.id === serverHandle.id`
(src/src/util/serverModel.ts lines 172-178).  The two distinct tags stand
for the `handler` closure and the `listener` predicate. -/
def deleteParams : CorrParams ServerHandle :=
  { eventId := "serverRemoved"
    listener := fun h => h.id == "wfly"
    timeoutMessage := ErrorMessages.DELETESERVER_TIMEOUT
    handlerId := 0
    listenerId := 1 }

/-- The way `Discovery.addDiscoveryPathSync` instantiates `sendRequestSync` with the
`discoveryPathAdded` event and the predicate
`param.filepath === discoveryPath.filepath`
(src/src/util/discovery.ts lines 66-73). -/
def addPathParams : CorrParams DiscoveryPath :=
  { eventId := "discoveryPathAdded"
    listener := fun p => p.filepath == "/opt/servers"
    timeoutMessage := ErrorMessages.ADDPATH_TIMEOUT
    handlerId := 0
    listenerId := 1 }

def demoPath : DiscoveryPath := { filepath := "/opt/servers" }

/-- Parameters of `startServerSync` on server id "wfly" waits for `STARTED`. -/
def startParams : LaunchParams := { id := "wfly", targetState := ServerState.STARTED }

def stStarting : ServerStateChange := { server := wflyHandle, state := ServerState.STARTING }

def stStarted : ServerStateChange := { server := wflyHandle, state := ServerState.STARTED }

def stOtherStarted : ServerStateChange := { server := otherHandle, state := ServerState.STARTED }

def wflyBean : ServerBean :=
  { name := "server", location := "/opt/servers/wfly", typeCategory := "WILDFLY",
    serverAdapterTypeId := "org.jboss.ide.eclipse.as.wildfly.130" }

def minishiftBean : ServerBean :=
  { name := "minishift", location := "/opt/minishift/minishift", typeCategory := "MINISHIFT",
    serverAdapterTypeId := "org.jboss.tools.openshift.cdk.server.type.minishift.v1_12" }

/-! ## Invariants of the correlation machines -/

/-- A resolved `sendRequestSync` promise implies that the request promise had
resolved and that the resolving payload matched the predicate; every queued
continuation belongs to a matching payload. -/
def CorrInv {E : Type} (P : CorrParams E) (s : CorrState E) : Prop :=
  (∀ p, s.outcome = some (Except.ok p) → s.respResolved = true ∧ P.listener p = true) ∧
  (∀ p ∈ s.pending, P.listener p = true)

/-- Same invariant for the launcher machine: a resolved promise implies the
request resolved and the payload carried the target id and terminal state. -/
def LaunchInv (P : LaunchParams) (s : LaunchState) : Prop :=
  (∀ st, s.outcome = some st →
      s.respResolved = true ∧ (st.server.id == P.id && st.state == P.targetState) = true) ∧
  (∀ st ∈ s.pending, (st.server.id == P.id && st.state == P.targetState) = true)

/-! ## Helper lemmas -/

lemma SendRequestSync.cont_respResolved {E : Type} (P : CorrParams E) (s : CorrState E) (p : E) :
    (SendRequestSync.cont P s p).respResolved = s.respResolved := by
  unfold SendRequestSync.cont CorrState.settleOk
  dsimp only
  split <;> rfl

lemma SendRequestSync.cont_pending {E : Type} (P : CorrParams E) (s : CorrState E) (p : E) :
    (SendRequestSync.cont P s p).pending = s.pending := by
  unfold SendRequestSync.cont CorrState.settleOk
  dsimp only
  split <;> rfl

lemma SendRequestSync.cont_outcome {E : Type} (P : CorrParams E) (s : CorrState E) (p q : E) :
    (SendRequestSync.cont P s p).outcome = some (Except.ok q) →
    s.outcome = some (Except.ok q) ∨ q = p := by
  unfold SendRequestSync.cont CorrState.settleOk
  dsimp only
  split
  · exact fun h => Or.inl h
  · intro h
    simp only [Option.some.injEq] at h
    exact Or.inr (congrArg (fun x => match x with
      | Except.ok v => v
      | Except.error _ => p) h).symm

lemma SendRequestSync.foldl_cont_inv {E : Type} (P : CorrParams E) :
    ∀ (l : List E) (s : CorrState E),
      s.respResolved = true →
      (∀ q, s.outcome = some (Except.ok q) → P.listener q = true) →
      (∀ q ∈ l, P.listener q = true) →
      (l.foldl (SendRequestSync.cont P) s).respResolved = true ∧
      (∀ q, (l.foldl (SendRequestSync.cont P) s).outcome = some (Except.ok q) →
        P.listener q = true) ∧
      (l.foldl (SendRequestSync.cont P) s).pending = s.pending := by
  intro l
  induction l with
  | nil => exact fun s h1 h2 _ => ⟨h1, h2, rfl⟩
  | cons a l ih =>
    intro s h1 h2 h3
    simp only [List.foldl_cons]
    have hr := SendRequestSync.cont_respResolved P s a
    have hp := SendRequestSync.cont_pending P s a
    obtain ⟨g1, g2, g3⟩ := ih (SendRequestSync.cont P s a) (hr.trans h1)
      (fun q hq => by
        rcases SendRequestSync.cont_outcome P s a q hq with h | h
        · exact h2 q h
        · rw [h]; exact h3 a (List.mem_cons_self a l))
      (fun q hq => h3 q (List.mem_cons_of_mem a hq))
    exact ⟨g1, g2, g3.trans hp⟩

lemma SendRequestSync.corrInv_step {E : Type} (P : CorrParams E) (s : CorrState E)
    (e : CorrEv E) (h : CorrInv P s) : CorrInv P (SendRequestSync.step P s e) := by
  obtain ⟨h1, h2⟩ := h
  cases e with
  | emit name p =>
    unfold SendRequestSync.step
    dsimp only
    split
    · split
      · rename_i hc hl
        split
        · rename_i hr
          constructor
          · intro q hq
            refine ⟨(SendRequestSync.cont_respResolved P s p).trans hr, ?_⟩
            rcases SendRequestSync.cont_outcome P s p q hq with ho | ho
            · exact (h1 q ho).2
            · subst ho; exact hl
          · intro q hq
            rw [SendRequestSync.cont_pending] at hq
            exact h2 q hq
        · split
          · exact ⟨h1, h2⟩
          · constructor
            · exact fun q hq => h1 q hq
            · intro q hq
              rcases List.mem_append.mp hq with hq | hq
              · exact h2 q hq
              · rw [List.mem_singleton.mp hq]; exact hl
      · exact ⟨h1, h2⟩
    · exact ⟨h1, h2⟩
  | respond =>
    unfold SendRequestSync.step
    dsimp only
    split
    · exact ⟨h1, h2⟩
    · obtain ⟨g1, g2, g3⟩ := SendRequestSync.foldl_cont_inv P s.pending
        { s with respResolved := true, pending := [] } rfl
        (fun q hq => (h1 q hq).2) h2
      constructor
      · exact fun q hq => ⟨g1, g2 q hq⟩
      · intro q hq
        rw [g3] at hq
        exact absurd hq (List.not_mem_nil q)
  | rejectReq =>
    unfold SendRequestSync.step
    dsimp only
    split
    · exact ⟨h1, h2⟩
    · constructor
      · exact fun q hq => h1 q hq
      · intro q hq
        exact absurd hq (List.not_mem_nil q)
  | fireTimer =>
    unfold SendRequestSync.step CorrState.settleErr
    dsimp only
    split
    · split
      · exact ⟨h1, h2⟩
      · constructor
        · intro q hq
          simp only [Option.some.injEq] at hq
          exact absurd hq (by simp)
        · exact h2
    · exact ⟨h1, h2⟩

lemma SendRequestSync.corrInv_foldl {E : Type} (P : CorrParams E) :
    ∀ (t : List (CorrEv E)) (s : CorrState E),
      CorrInv P s → CorrInv P (t.foldl (SendRequestSync.step P) s) := by
  intro t
  induction t with
  | nil => exact fun s h => h
  | cons a t ih =>
    intro s h
    rw [List.foldl_cons]
    exact ih _ (SendRequestSync.corrInv_step P s a h)

lemma SendRequestSync.corrInv_run {E : Type} (P : CorrParams E) (e0 : Emitter)
    (t : List (CorrEv E)) : CorrInv P (SendRequestSync.run P e0 t) := by
  have hinit : CorrInv P (SendRequestSync.init P e0) := by
    constructor
    · intro q hq; exact absurd hq (by simp [SendRequestSync.init])
    · intro q hq; exact absurd hq (List.not_mem_nil q)
  exact SendRequestSync.corrInv_foldl P t _ hinit

lemma StartServerSync.lcont_respResolved (s : LaunchState) (st : ServerStateChange) :
    (StartServerSync.cont s st).respResolved = s.respResolved := by
  unfold StartServerSync.cont
  dsimp only
  split <;> rfl

lemma StartServerSync.lcont_pending (s : LaunchState) (st : ServerStateChange) :
    (StartServerSync.cont s st).pending = s.pending := by
  unfold StartServerSync.cont
  dsimp only
  split <;> rfl

lemma StartServerSync.lcont_outcome (s : LaunchState) (st q : ServerStateChange) :
    (StartServerSync.cont s st).outcome = some q →
    s.outcome = some q ∨ q = st := by
  unfold StartServerSync.cont
  dsimp only
  split
  · exact fun h => Or.inl h
  · intro h
    simp only [Option.some.injEq] at h
    exact Or.inr h.symm

lemma StartServerSync.foldl_lcont_inv (P : LaunchParams) :
    ∀ (l : List ServerStateChange) (s : LaunchState),
      s.respResolved = true →
      (∀ q, s.outcome = some q → (q.server.id == P.id && q.state == P.targetState) = true) →
      (∀ q ∈ l, (q.server.id == P.id && q.state == P.targetState) = true) →
      (l.foldl StartServerSync.cont s).respResolved = true ∧
      (∀ q, (l.foldl StartServerSync.cont s).outcome = some q →
        (q.server.id == P.id && q.state == P.targetState) = true) ∧
      (l.foldl StartServerSync.cont s).pending = s.pending := by
  intro l
  induction l with
  | nil => exact fun s h1 h2 _ => ⟨h1, h2, rfl⟩
  | cons a l ih =>
    intro s h1 h2 h3
    simp only [List.foldl_cons]
    have hr := StartServerSync.lcont_respResolved s a
    have hp := StartServerSync.lcont_pending s a
    obtain ⟨g1, g2, g3⟩ := ih (StartServerSync.cont s a) (hr.trans h1)
      (fun q hq => by
        rcases StartServerSync.lcont_outcome s a q hq with h | h
        · exact h2 q h
        · rw [h]; exact h3 a (List.mem_cons_self a l))
      (fun q hq => h3 q (List.mem_cons_of_mem a hq))
    exact ⟨g1, g2, g3.trans hp⟩

lemma StartServerSync.launchInv_step (P : LaunchParams) (s : LaunchState)
    (e : LaunchEv) (h : LaunchInv P s) : LaunchInv P (StartServerSync.step P s e) := by
  obtain ⟨h1, h2⟩ := h
  cases e with
  | notifyState st =>
    unfold StartServerSync.step
    dsimp only
    split
    · rename_i hl
      split
      · rename_i hr
        constructor
        · intro q hq
          refine ⟨(StartServerSync.lcont_respResolved s st).trans hr, ?_⟩
          rcases StartServerSync.lcont_outcome s st q hq with ho | ho
          · exact (h1 q ho).2
          · rw [ho]; exact hl
        · intro q hq
          rw [StartServerSync.lcont_pending] at hq
          exact h2 q hq
      · split
        · exact ⟨h1, h2⟩
        · constructor
          · exact fun q hq => h1 q hq
          · intro q hq
            rcases List.mem_append.mp hq with hq | hq
            · exact h2 q hq
            · rw [List.mem_singleton.mp hq]; exact hl
    · exact ⟨h1, h2⟩
  | respond =>
    unfold StartServerSync.step
    dsimp only
    split
    · exact ⟨h1, h2⟩
    · obtain ⟨g1, g2, g3⟩ := StartServerSync.foldl_lcont_inv P s.pending
        { s with respResolved := true, pending := [] } rfl
        (fun q hq => (h1 q hq).2) h2
      constructor
      · exact fun q hq => ⟨g1, g2 q hq⟩
      · intro q hq
        rw [g3] at hq
        exact absurd hq (List.not_mem_nil q)
  | rejectReq =>
    unfold StartServerSync.step
    dsimp only
    split
    · exact ⟨h1, h2⟩
    · constructor
      · exact fun q hq => h1 q hq
      · intro q hq
        exact absurd hq (List.not_mem_nil q)
  | fireTimer =>
    unfold StartServerSync.step
    dsimp only
    split
    · exact ⟨fun q hq => h1 q hq, h2⟩
    · exact ⟨h1, h2⟩

lemma StartServerSync.launchInv_foldl (P : LaunchParams) :
    ∀ (t : List LaunchEv) (s : LaunchState),
      LaunchInv P s → LaunchInv P (t.foldl (StartServerSync.step P) s) := by
  intro t
  induction t with
  | nil => exact fun s h => h
  | cons a t ih =>
    intro s h
    rw [List.foldl_cons]
    exact ih _ (StartServerSync.launchInv_step P s a h)

lemma StartServerSync.launchInv_run (P : LaunchParams) (e0 : Emitter)
    (t : List LaunchEv) : LaunchInv P (StartServerSync.run P e0 t) := by
  have hinit : LaunchInv P (StartServerSync.init e0) := by
    constructor
    · intro q hq; exact absurd hq (by simp [StartServerSync.init])
    · intro q hq; exact absurd hq (List.not_mem_nil q)
  exact StartServerSync.launchInv_foldl P t _ hinit

/-! ## Claims -/

/-- Claim C1 (code bug): the correlated operations are supposed to perform
exactly one subscription and, on every exit path, one matching unsubscription
so that the listener count returns to its pre-call value.  The code does not:
`Common.sendRequestSync` (here instantiated as `deleteServerSync`) registers
`handler` but calls `removeListener(eventId, listener)` with the predicate,
so even on the success path the prepended handler is still registered and the
count for the watched event stays one above its pre-call value of zero; on
the timeout path nothing is ever unsubscribed; `startServerSync` registers a
connection notification handler that is never removed at all. -/
theorem C1_success_path_leaves_listener_registered :
    ((SendRequestSync.run deleteParams [] [CorrEv.emit "serverRemoved" wflyHandle,
        CorrEv.respond]).outcome = some (Except.ok wflyHandle) ∧
      Emitter.listenerCount
        (SendRequestSync.run deleteParams [] [CorrEv.emit "serverRemoved" wflyHandle,
          CorrEv.respond]).emitter "serverRemoved" = 1 ∧
      Emitter.listenerCount ([] : Emitter) "serverRemoved" = 0) ∧
    ((SendRequestSync.run deleteParams [] [CorrEv.fireTimer]).outcome
        = some (Except.error ErrorMessages.DELETESERVER_TIMEOUT) ∧
      Emitter.listenerCount
        (SendRequestSync.run deleteParams [] [CorrEv.fireTimer]).emitter "serverRemoved" = 1) ∧
    ((StartServerSync.run startParams [] [LaunchEv.respond,
        LaunchEv.notifyState stStarted]).outcome = some stStarted ∧
      (StartServerSync.run startParams [] [LaunchEv.respond,
        LaunchEv.notifyState stStarted]).connHandlers = 1) := by
  decide

/-- Claim C3 counterexample: a transport rejection is not surfaced at all —
after `rejectReq` the returned promise of `sendSimpleRequest` (and of
`sendRequestSync`) is still pending, the subscription is still in place, and
the caller only ever sees the timeout error once the timer fires. -/
theorem C3_transport_rejection_not_surfaced :
    (SendSimpleRequest.run ErrorMessages.FINDBEANS_TIMEOUT
        ([SimpleEv.rejectReq] : List (SimpleEv Nat))).outcome = none ∧
    (SendSimpleRequest.run ErrorMessages.FINDBEANS_TIMEOUT
        ([SimpleEv.rejectReq, SimpleEv.fireTimer] : List (SimpleEv Nat))).outcome
      = some (Except.error ErrorMessages.FINDBEANS_TIMEOUT) ∧
    (SendRequestSync.run deleteParams [] [CorrEv.rejectReq]).outcome = none ∧
    Emitter.listenerCount
      (SendRequestSync.run deleteParams [] [CorrEv.rejectReq]).emitter "serverRemoved" = 1 := by
  decide

/-- Claim C3 amended: a rejection of the underlying request promise is
swallowed — no rejection handler is attached, so the step leaves the outcome
(and, for correlated operations, the emitter) unchanged, and the operation
can only fail later with the timeout message when the timer fires. -/
theorem C3_amended_rejection_swallowed :
    (∀ (R : Type) (msg : String) (s : SimpleState R),
        (SendSimpleRequest.step msg s SimpleEv.rejectReq).outcome = s.outcome) ∧
    (∀ (E : Type) (P : CorrParams E) (s : CorrState E),
        (SendRequestSync.step P s CorrEv.rejectReq).outcome = s.outcome ∧
        (SendRequestSync.step P s CorrEv.rejectReq).emitter = s.emitter) ∧
    (∀ msg : String,
        (SendSimpleRequest.run msg
          ([SimpleEv.rejectReq, SimpleEv.fireTimer] : List (SimpleEv Nat))).outcome
          = some (Except.error msg)) := by
  refine ⟨?_, ?_, ?_⟩
  · intro R msg s
    unfold SendSimpleRequest.step
    dsimp only
    split <;> rfl
  · intro E P s
    unfold SendRequestSync.step
    dsimp only
    constructor <;> (split <;> rfl)
  · intro msg
    rfl

/-- Claim C4 (code bug): the timer of `startServerSync`/`stopServerSync`
(src/src/util/serverLauncher.ts) never rejects the returned promise: its
callback only builds a dangling `Promise.reject`, so after the timer fires
the operation is still unresolved — and it can even resolve successfully
later.  By contrast the `Common` helpers do reject with the operation's
specific message, which is what the claim (and the repository's own test
"startServerSync should error on timeout") describes. -/
theorem C4_startServerSync_timer_never_rejects :
    ((StartServerSync.run startParams [] [LaunchEv.fireTimer]).outcome = none ∧
      (StartServerSync.run startParams [] [LaunchEv.fireTimer]).timerActive = false ∧
      (StartServerSync.run startParams [] [LaunchEv.fireTimer]).unhandledRejections = 1) ∧
    (StartServerSync.run startParams [] [LaunchEv.fireTimer, LaunchEv.notifyState stStarted,
        LaunchEv.respond]).outcome = some stStarted ∧
    (SendSimpleRequest.run ErrorMessages.STARTSERVER_TIMEOUT
        ([SimpleEv.fireTimer] : List (SimpleEv Nat))).outcome
      = some (Except.error ErrorMessages.STARTSERVER_TIMEOUT) ∧
    (SendSimpleRequest.run ErrorMessages.STARTSERVER_TIMEOUT
        ([SimpleEv.respond 0, SimpleEv.fireTimer] : List (SimpleEv Nat))).outcome
      = some (Except.ok 0) := by
  decide

/-- Claim C2: a correlated operation resolves only after both the request's
own response has resolved and a predicate-matching event has been observed,
in either arrival order.  The first two conjuncts state this for every trace
of `sendRequestSync` and of `startServerSync`/`stopServerSync`; the scenario
conjuncts show both arrival orders on `deleteServerSync`: the matching event
alone or the response alone leaves the promise pending, and either
completion order resolves it with the matching payload. -/
theorem C2_resolution_requires_response_and_match :
    (∀ (E : Type) (P : CorrParams E) (e0 : Emitter) (t : List (CorrEv E)) (p : E),
        (SendRequestSync.run P e0 t).outcome = some (Except.ok p) →
        (SendRequestSync.run P e0 t).respResolved = true ∧ P.listener p = true) ∧
    (∀ (P : LaunchParams) (e0 : Emitter) (t : List LaunchEv) (st : ServerStateChange),
        (StartServerSync.run P e0 t).outcome = some st →
        (StartServerSync.run P e0 t).respResolved = true ∧
          (st.server.id == P.id && st.state == P.targetState) = true) ∧
    ((SendRequestSync.run deleteParams [] [CorrEv.emit "serverRemoved" wflyHandle]).outcome
        = none ∧
      (SendRequestSync.run deleteParams [] [CorrEv.emit "serverRemoved" wflyHandle,
        CorrEv.respond]).outcome = some (Except.ok wflyHandle) ∧
      (SendRequestSync.run deleteParams [] [CorrEv.respond]).outcome = none ∧
      (SendRequestSync.run deleteParams [] [CorrEv.respond,
        CorrEv.emit "serverRemoved" wflyHandle]).outcome = some (Except.ok wflyHandle)) := by
  refine ⟨?_, ?_, by decide⟩
  · intro E P e0 t p hp
    exact (SendRequestSync.corrInv_run P e0 t).1 p hp
  · intro P e0 t st hst
    exact (StartServerSync.launchInv_run P e0 t).1 st hst

/-- Witness for C2 at a concrete input: the delete scenario, event first. -/
theorem C2_witness :
    (SendRequestSync.run deleteParams [] [CorrEv.emit "serverRemoved" wflyHandle,
        CorrEv.respond]).respResolved = true ∧
      deleteParams.listener wflyHandle = true :=
  C2_resolution_requires_response_and_match.1 ServerHandle deleteParams []
    [CorrEv.emit "serverRemoved" wflyHandle, CorrEv.respond] wflyHandle (by decide)

/-- Claim C5: an event under the watched name whose predicate is false leaves
the machine state — including the timer and the outcome — completely
unchanged, and only a predicate-true payload can ever appear in a
resolution.  The scenario conjuncts replay the spec's "wfly" story: a
STARTING event is ignored and keeps the timer armed, a later STARTED event
resolves, and no trace whatsoever can resolve `startServerSync("wfly")` with
an event for a different server id. -/
theorem C5_nonmatching_events_ignored :
    (∀ (E : Type) (P : CorrParams E) (s : CorrState E) (name : String) (p : E),
        P.listener p = false → SendRequestSync.step P s (CorrEv.emit name p) = s) ∧
    (∀ (P : LaunchParams) (s : LaunchState) (st : ServerStateChange),
        (st.server.id == P.id && st.state == P.targetState) = false →
        StartServerSync.step P s (LaunchEv.notifyState st) = s) ∧
    ((StartServerSync.run startParams [] [LaunchEv.respond,
        LaunchEv.notifyState stStarting]).outcome = none ∧
      (StartServerSync.run startParams [] [LaunchEv.respond,
        LaunchEv.notifyState stStarting]).timerActive = true ∧
      (StartServerSync.run startParams [] [LaunchEv.respond,
        LaunchEv.notifyState stStarting, LaunchEv.notifyState stStarted]).outcome
        = some stStarted ∧
      (StartServerSync.run startParams [] [LaunchEv.respond,
        LaunchEv.notifyState stOtherStarted]).outcome = none) ∧
    (∀ (t : List LaunchEv) (st : ServerStateChange),
        (StartServerSync.run startParams [] t).outcome = some st →
        st.server.id = "wfly") := by
  refine ⟨?_, ?_, by decide, ?_⟩
  · intro E P s name p hp
    simp [SendRequestSync.step, hp]
  · intro P s st hst
    simp [StartServerSync.step, hst]
  · intro t st hst
    have h := ((StartServerSync.launchInv_run startParams [] t).1 st hst).2
    have h1 := (Bool.and_eq_true _ _).mp h
    exact eq_of_beq h1.1

/-- Witness for C5 at a concrete input: a STARTING event for the right id is
dropped without touching the state of `startServerSync`. -/
theorem C5_witness :
    StartServerSync.step startParams (StartServerSync.init [])
        (LaunchEv.notifyState stStarting) = StartServerSync.init [] :=
  C5_nonmatching_events_ignored.2.1 startParams (StartServerSync.init []) stStarting (by decide)

/-- Claim C6 (code bug): the `Common.sendRequestSync` operations and the
create coordinators do subscribe on the emitter in prepend mode before the
request is sent, but `startServerSync`/`stopServerSync`
(src/src/util/serverLauncher.ts) do not: their prologue contains no prepend
subscription at all — they register a handler directly on the connection and
never touch the shared emitter — contradicting the repository's own test
"startServerSync should register for the correct event"
(prependListener spy). -/
theorem C6_prepend_subscription_before_send :
    ((sendRequestSyncEffects "serverRemoved" "server/deleteServer").get? 1
        = some (Effect.subscribePrepend "serverRemoved") ∧
      (sendRequestSyncEffects "serverRemoved" "server/deleteServer").get? 2
        = some (Effect.sendReq "server/deleteServer") ∧
      createServerFromPathEffects.get? 1 = some (Effect.subscribePrepend "serverAdded") ∧
      createServerFromPathEffects.get? 3 = some (Effect.sendReq "server/createServer")) ∧
    (startServerSyncEffects.countP (fun e => Effect.isSubscribePrepend e) = 0 ∧
      stopServerSyncEffects.countP (fun e => Effect.isSubscribePrepend e) = 0 ∧
      startServerSyncEffects.get? 1 = some (Effect.subscribeConnection "serverStateChanged")) ∧
    (∀ e0 : Emitter, (StartServerSync.init e0).emitter = e0) := by
  refine ⟨by decide, by decide, fun e0 => rfl⟩

/-- Claim C8 counterexample: on an empty discovery result
`createServerFromPath` derives no attributes and sends no create request —
but the failure is not surfaced either: the returned promise is still
pending after the crash (the async executor's TypeError rejects only the
discarded executor promise), and the caller only sees the generic
create-timeout rejection when the timer fires. -/
theorem C8_empty_discovery_not_surfaced :
    (CreateFromPath.run "wfly" [] [CreateEv.beansRespond []]).outcome = none ∧
    (CreateFromPath.run "wfly" [] [CreateEv.beansRespond []]).createSent = none ∧
    (CreateFromPath.run "wfly" [] [CreateEv.beansRespond []]).executorCrashed = true ∧
    (CreateFromPath.run "wfly" [] [CreateEv.beansRespond [], CreateEv.fireTimer]).outcome
      = some (Except.error ErrorMessages.CREATESERVER_TIMEOUT) := by
  decide

/-- Claim C8 amended: when discovery returns an empty candidate list, no
attributes are derived and no create request is ever sent; but the failure
is not surfaced as a local error — the executor crash is swallowed, the
`serverAdded` listener stays subscribed, and the returned promise rejects
only with the create-timeout message once the timer fires. -/
theorem C8_amended_empty_discovery :
    ∀ (id : String) (e0 : Emitter),
      (CreateFromPath.run id e0 [CreateEv.beansRespond []]).createSent = none ∧
      (CreateFromPath.run id e0 [CreateEv.beansRespond []]).outcome = none ∧
      (CreateFromPath.run id e0 [CreateEv.beansRespond []]).executorCrashed = true ∧
      (CreateFromPath.run id e0 [CreateEv.beansRespond []]).emitter
        = Emitter.prependListener e0 "serverAdded" CreateFromPath.handlerId ∧
      (CreateFromPath.run id e0 [CreateEv.beansRespond [], CreateEv.fireTimer]).outcome
        = some (Except.error ErrorMessages.CREATESERVER_TIMEOUT) := by
  intro id e0
  exact ⟨rfl, rfl, rfl, rfl, rfl⟩

/-- Claim C9: `createServerFromPathAsync` gives the discovery request half of
the supplied timeout and the create request the full timeout, so the total
budget is 1.5 times the supplied value. -/
theorem C9_async_budgets :
    ∀ timeout : ℚ,
      createServerFromPathAsyncBudgets timeout = (timeout / 2, timeout) ∧
      (createServerFromPathAsyncBudgets timeout).1 + (createServerFromPathAsyncBudgets timeout).2
        = 3 / 2 * timeout := by
  intro t
  refine ⟨rfl, ?_⟩
  unfold createServerFromPathAsyncBudgets
  ring

/-- Claim C10: `disconnect` throws when the connection was never initialised,
leaving the client untouched; otherwise it empties the listener table for
every event name and only then disposes the connection and destroys the
socket (effect order as in the source). -/
theorem C10_disconnect :
    (∀ s : RSPClientState, s.connectionInitialized = false →
        RSPClient.disconnect s = Except.error "Connection not initialized") ∧
    (∀ s s' : RSPClientState, RSPClient.disconnect s = Except.ok s' →
        (∀ name : String, s'.emitter.listenerCount name = 0) ∧
        s'.connectionDisposed = true ∧ s'.socketDestroyed = true) ∧
    (RSPClient.disconnectEffects.get? 0 = some DisconnectEffect.removeAllListeners ∧
      RSPClient.disconnectEffects.get? 1 = some DisconnectEffect.disposeConnection ∧
      RSPClient.disconnectEffects.get? 2 = some DisconnectEffect.endSocket ∧
      RSPClient.disconnectEffects.get? 3 = some DisconnectEffect.destroySocket) := by
  refine ⟨?_, ?_, by decide⟩
  · intro s hs
    simp [RSPClient.disconnect, hs]
  · intro s s' hs
    unfold RSPClient.disconnect at hs
    split at hs
    · cases hs
    · cases hs
      refine ⟨?_, rfl, rfl⟩
      intro name
      rfl

/-- Witness for C10 at concrete inputs: both branches of `disconnect`. -/
theorem C10_witness :
    RSPClient.disconnect ⟨false, [("serverAdded", 7)], false, false⟩
      = Except.error "Connection not initialized" ∧
    Emitter.listenerCount
      ((⟨true, [("serverAdded", 7)], false, false⟩ : RSPClientState).emitter.removeAllListeners)
      "serverAdded" = 0 := by
  constructor
  · exact C10_disconnect.1 ⟨false, [("serverAdded", 7)], false, false⟩ rfl
  · exact (C10_disconnect.2.1 ⟨true, [("serverAdded", 7)], false, false⟩ _ rfl).1 "serverAdded"

/-- Claim C7: `createServerFromPath` selects the first discovery candidate,
derives the attribute map (`server.home.dir` always, `server.home.file` for
the MINISHIFT category), sends the create request under the requested id,
and resolves with the handle of the first `serverAdded` event carrying that
id — but only once the create request's own response has resolved (the event
alone leaves the promise pending). -/
theorem C7_createServerFromPath :
    ∀ (b : ServerBean) (rest : List ServerBean) (id : String) (h : ServerHandle),
      h.id = id →
      ((CreateFromPath.run id [] [CreateEv.beansRespond (b :: rest), CreateEv.createRespond,
          CreateEv.emitAdded h]).outcome = some (Except.ok h) ∧
        (CreateFromPath.run id [] [CreateEv.beansRespond (b :: rest), CreateEv.createRespond,
          CreateEv.emitAdded h]).createSent = some (ServerModel.createServerAttributes b id) ∧
        (CreateFromPath.run id [] [CreateEv.beansRespond (b :: rest),
          CreateEv.emitAdded h]).outcome = none ∧
        (CreateFromPath.run id [] [CreateEv.beansRespond (b :: rest), CreateEv.emitAdded h,
          CreateEv.createRespond]).outcome = some (Except.ok h)) ∧
      ((ServerModel.createServerAttributes b id).id = id ∧
        (ServerModel.createServerAttributes b id).serverType = b.serverAdapterTypeId ∧
        (ServerModel.createServerAttributes b id).attributes.lookup "server.home.dir"
          = some b.location ∧
        (b.typeCategory = "MINISHIFT" →
          (ServerModel.createServerAttributes b id).attributes.lookup "server.home.file"
            = some b.location)) := by
  intro b rest id h hid
  have hbeq : (h.id == id) = true := beq_iff_eq.mpr hid
  constructor
  · refine ⟨?_, ?_, ?_, ?_⟩ <;>
      simp [CreateFromPath.run, CreateFromPath.step, CreateFromPath.init, CreateFromPath.cont,
        CreateFromPath.handlerId, Emitter.prependListener, Emitter.listeners,
        Emitter.removeListener, hbeq]
  · refine ⟨rfl, rfl, ?_, ?_⟩
    · simp [ServerModel.createServerAttributes, List.lookup]
    · intro hmini
      simp [ServerModel.createServerAttributes, List.lookup, hmini]

/-- Witness for C7 at the spec's concrete input: one WildFly candidate, the
requested id "wfly", and the matching `serverAdded` handle; plus the
MINISHIFT extra attribute on a MINISHIFT candidate. -/
theorem C7_witness :
    (CreateFromPath.run "wfly" [] [CreateEv.beansRespond [wflyBean], CreateEv.createRespond,
        CreateEv.emitAdded wflyHandle]).outcome = some (Except.ok wflyHandle) ∧
      (ServerModel.createServerAttributes minishiftBean "minishift").attributes.lookup
        "server.home.file" = some minishiftBean.location :=
  ⟨(C7_createServerFromPath wflyBean [] "wfly" wflyHandle rfl).1.1,
    (C7_createServerFromPath minishiftBean [] "minishift" ⟨"minishift", wflyType⟩ rfl).2.2.2.2 rfl⟩
